import Mathlib

/-!
Shallow embedding of the `rutils` repository's connection manager
(`src/redis_manager.rs`) and tracing/log sink (`src/redis_tracing.rs`),
with theorems settling the specification claims about them.
-/

/-! ## Connection pool model (src/redis_manager.rs)

A pool is a FIFO `VecDeque` of idle sessions; we model sessions by `Nat`
identifiers and the deque front as the list head. -/

/-- Source constant `static MAX_POOL_SIZE: usize = 100;` (redis_manager.rs line 10). -/
def MAX_POOL_SIZE : Nat := 100

/-- Model of `return_async_connection` / `return_pubsub_connection` /
`return_sync_connection` (redis_manager.rs lines 95-127): lock the pool, push
the connection at the back only if `pool.len() < MAX_POOL_SIZE`, otherwise
the connection is dropped and the pool is unchanged. -/
def returnConnection (pool : List Nat) (conn : Nat) : List Nat :=
  if pool.length < MAX_POOL_SIZE then pool ++ [conn] else pool

/-- Model of the checkout side effect on the pool (`pop_front`): the front
idle session is removed if present; on an empty pool a fresh session is
created outside the pool and the pool is untouched (`List.tail [] = []`). -/
def checkoutPool (pool : List Nat) : List Nat :=
  pool.tail

/-- One operation on a pool: a checkout (`get_*_connection`) or a return of
session `conn` (`return_*_connection`). -/
inductive PoolOp where
  | checkout : PoolOp
  | ret (conn : Nat) : PoolOp
deriving DecidableEq, Repr

/-- Effect of one operation on the idle pool. -/
def applyOp (pool : List Nat) : PoolOp → List Nat
  | .checkout => checkoutPool pool
  | .ret conn => returnConnection pool conn

/-- Effect of a sequence of operations, applied left to right. -/
def applyOps (pool : List Nat) : List PoolOp → List Nat
  | [] => pool
  | op :: rest => applyOps (applyOp pool op) rest

/-! ## Lock-scope traces of the checkout/return operations

The source uses a `std::sync::Mutex` around each `VecDeque`; the lock is held
for the lexical scope of the `MutexGuard` binding.  We record each function's
body as a trace of atomic actions and ask whether an `.await` of network I/O
occurs while the lock is held. -/

/-- Atomic actions of a checkout or return operation, in program order. -/
inductive PoolAction where
  | lockAcquire : PoolAction
  | lockRelease : PoolAction
  | poolPop : PoolAction
  | poolPush : PoolAction
  | netAwait : PoolAction
deriving DecidableEq, Repr

/-- Trace of `get_async_conn` (redis_manager.rs lines 51-65): the
`MutexGuard` is bound at function scope, so on the empty-pool path the
`get_multiplexed_async_connection().await` at line 59 runs while the lock is
still held; the guard is released only at the end of the function. -/
def getAsyncConnTrace (poolEmpty : Bool) : List PoolAction :=
  if poolEmpty then [.lockAcquire, .poolPop, .netAwait, .lockRelease]
  else [.lockAcquire, .poolPop, .lockRelease]

/-- Trace of `get_async_connection` (redis_manager.rs lines 81-92): the
`MutexGuard` is scoped to the inner block `{ ... pool.pop_front() }`, so the
lock is released before the `get_multiplexed_async_connection().await` on the
empty-pool path. -/
def getAsyncConnectionTrace (poolEmpty : Bool) : List PoolAction :=
  if poolEmpty then [.lockAcquire, .poolPop, .lockRelease, .netAwait]
  else [.lockAcquire, .poolPop, .lockRelease]

/-- Trace of `get_pubsub_connection` (redis_manager.rs lines 109-120): same
inner-block scoping as `get_async_connection`; `get_async_pubsub().await`
runs after the lock is released. -/
def getPubsubConnectionTrace (poolEmpty : Bool) : List PoolAction :=
  if poolEmpty then [.lockAcquire, .poolPop, .lockRelease, .netAwait]
  else [.lockAcquire, .poolPop, .lockRelease]

/-- Trace of `return_async_connection` (redis_manager.rs lines 102-107) and
`return_pubsub_connection` (lines 122-127): lock, conditional push, release;
no `.await` occurs in the body. -/
def returnConnectionTrace (hasRoom : Bool) : List PoolAction :=
  if hasRoom then [.lockAcquire, .poolPush, .lockRelease]
  else [.lockAcquire, .lockRelease]

/-- True when some `netAwait` action occurs while the lock depth is positive,
i.e. the lock is held across an await of network I/O. -/
def holdsLockAcrossAwait : List PoolAction → Nat → Bool
  | [], _ => false
  | .lockAcquire :: rest, d => holdsLockAcrossAwait rest (d + 1)
  | .lockRelease :: rest, d => holdsLockAcrossAwait rest (d - 1)
  | .netAwait :: rest, d => decide (0 < d) || holdsLockAcrossAwait rest d
  | .poolPop :: rest, d => holdsLockAcrossAwait rest d
  | .poolPush :: rest, d => holdsLockAcrossAwait rest d

/-! ## Rendezvous model: subscribe_and_wait_for_response (redis_manager.rs lines 136-165)

The external boundary is what the subscription stream yields after the
`subscribe` call completes: either a first message (with its arrival time,
measured from the subscribe), the stream ending with no message (channel
closed by the store), or nothing at all.  `tokio::time::timeout` races that
against a timer of the given duration. -/

/-- What the subscription stream yields after the subscribe call. -/
inductive StreamOutcome where
  | msg (payload : String) (arrival : Nat) : StreamOutcome
  | closed (endTime : Nat) : StreamOutcome
  | silent : StreamOutcome
deriving DecidableEq, Repr

/-- Result of `timeout(timeout_duration, pubsub_stream.next()).await`:
`Ok(Some(msg))` when the first message arrives before the timer fires,
`Ok(None)` when the stream ends before the timer fires, `Err(Elapsed)` when
the timer fires first. -/
inductive WaitResult where
  | received (payload : String) : WaitResult
  | streamEnded : WaitResult
  | elapsed : WaitResult
deriving DecidableEq, Repr

/-- Semantics of the `tokio::time::timeout` race. -/
def timeoutRace (timeoutDuration : Nat) : StreamOutcome → WaitResult
  | .msg payload arrival =>
      if arrival < timeoutDuration then .received payload else .elapsed
  | .closed endTime =>
      if endTime < timeoutDuration then .streamEnded else .elapsed
  | .silent => .elapsed

/-- Model of `redis::RedisError` as built in the source: an error kind plus
the detail string passed to `RedisError::from((kind, detail))`. -/
structure RedisErr where
  kind : String
  detail : String
deriving DecidableEq, Repr

/-- Error built at redis_manager.rs line 150: stream ended with no message. -/
def noMessageErr : RedisErr := { kind := "IoError", detail := "No message received" }

/-- Error built at redis_manager.rs line 154: the timer fired first. -/
def timeoutErr : RedisErr := { kind := "IoError", detail := "Timeout waiting for response" }

/-- Error standing for a failed `conn.subscribe(...)` call (line 142); its
`?` propagates before the wait begins. -/
def subscribeErr : RedisErr := { kind := "IoError", detail := "subscribe failed" }

/-- Externally visible actions of one `subscribe_and_wait_for_response` run,
in program order. -/
inductive RdvAction where
  | subscribe (channel : String) : RdvAction
  | unsubscribe (channel : String) : RdvAction
  | returnToPool : RdvAction
deriving DecidableEq, Repr

/-- Observable outcome of one `subscribe_and_wait_for_response` run: the
returned value, the pub/sub actions issued, and the pub/sub pool afterwards. -/
structure RendezvousRun where
  result : Except RedisErr String
  actions : List RdvAction
  finalPool : List Nat
deriving Repr

/-- Model of `RedisManager::subscribe_and_wait_for_response` (redis_manager.rs
lines 136-165).  `pool` is the pub/sub pool; `fresh` is the session created
when the pool is empty; `subscribeOk` is whether the external `subscribe`
call succeeds; `env` is what the subscription stream yields.  The source
matches on the race result, then unconditionally drops the stream,
unsubscribes, and returns the session to the pool before returning the match
result.  The external `unsubscribe` call is modelled as succeeding. -/
def subscribe_and_wait_for_response (pool : List Nat) (fresh : Nat)
    (channel : String) (timeoutDuration : Nat) (subscribeOk : Bool)
    (env : StreamOutcome) : RendezvousRun :=
  let conn := pool.headD fresh
  let poolAfterCheckout := pool.tail
  if subscribeOk then
    let response : Except RedisErr String :=
      match timeoutRace timeoutDuration env with
      | .received payload => .ok payload
      | .streamEnded => .error noMessageErr
      | .elapsed => .error timeoutErr
    { result := response
    , actions := [.subscribe channel, .unsubscribe channel, .returnToPool]
    , finalPool := returnConnection poolAfterCheckout conn }
  else
    { result := .error subscribeErr
    , actions := [.subscribe channel]
    , finalPool := poolAfterCheckout }

/-! ## LogData and its JSON serialization (redis_tracing.rs lines 28-36)

`LogData` derives serde `Serialize`/`Deserialize`; `serde_json::to_string`
produces a JSON object whose fields appear in declaration order, with
`Option` fields as JSON `null` when `None`.  All field values here are
strings or null, so the JSON values needed are just those two. -/

/-- JSON values reachable from `LogData`: strings and null. -/
inductive JsonValue where
  | null : JsonValue
  | str (s : String) : JsonValue
deriving DecidableEq, Repr

/-- A JSON object: an ordered field list. -/
structure JsonObj where
  fields : List (String × JsonValue)
deriving DecidableEq, Repr

/-- Names of an object's fields, in serialization order. -/
def JsonObj.fieldNames (o : JsonObj) : List String :=
  o.fields.map Prod.fst

/-- Value of a field by name. -/
def JsonObj.lookup (o : JsonObj) (k : String) : Option JsonValue :=
  o.fields.lookup k

/-- The struct `LogData` (redis_tracing.rs lines 28-36): exactly the fields
`timestamp`, `level`, `message`, `span_id`, `trace_id`, `span_name`. -/
structure LogData where
  timestamp : String
  level : String
  message : String
  span_id : Option String
  trace_id : String
  span_name : Option String
deriving DecidableEq, Repr

/-- Serde serialization of `Option<String>`: `None` becomes `null`. -/
def optJson : Option String → JsonValue
  | none => .null
  | some s => .str s

/-- Serde `Serialize` for `LogData`: a JSON object with the six declared
fields in declaration order. -/
def LogData.toJson (ld : LogData) : JsonObj :=
  { fields :=
      [ ("timestamp", .str ld.timestamp)
      , ("level", .str ld.level)
      , ("message", .str ld.message)
      , ("span_id", optJson ld.span_id)
      , ("trace_id", .str ld.trace_id)
      , ("span_name", optJson ld.span_name) ] }

/-- Lowercase hexadecimal digit, as serde_json writes in escapes. -/
def hexDigitChar (n : Nat) : Char :=
  if n < 10 then Char.ofNat (48 + n) else Char.ofNat (87 + n)

/-- serde_json string escaping for one character: quote, backslash, the
short control escapes, and the generic control escape. -/
def escapeJsonChar (c : Char) : String :=
  if c = '"' then "\\\""
  else if c = '\\' then "\\\\"
  else if c.toNat = 8 then "\\b"
  else if c.toNat = 9 then "\\t"
  else if c.toNat = 10 then "\\n"
  else if c.toNat = 12 then "\\f"
  else if c.toNat = 13 then "\\r"
  else if c.toNat < 32 then
    "\\u00" ++ String.singleton (hexDigitChar (c.toNat / 16))
      ++ String.singleton (hexDigitChar (c.toNat % 16))
  else String.singleton c

/-- serde_json escaping of a whole string. -/
def escapeJsonString (s : String) : String :=
  String.join (s.data.map escapeJsonChar)

/-- Compact rendering of one JSON value, as `serde_json::to_string` writes it. -/
def JsonValue.render : JsonValue → String
  | .null => "null"
  | .str s => "\"" ++ escapeJsonString s ++ "\""

/-- Compact rendering of a JSON object, as `serde_json::to_string` writes it. -/
def JsonObj.render (o : JsonObj) : String :=
  "\x7b"
    ++ String.intercalate ","
      (o.fields.map (fun f => "\"" ++ escapeJsonString f.1 ++ "\":" ++ f.2.render))
    ++ "\x7d"

/-! ## RFC-3339 timestamp to epoch milliseconds

Model of `chrono::DateTime::parse_from_rfc3339(ts).timestamp_millis()`
(redis_tracing.rs lines 96-98): parse `YYYY-MM-DDTHH:MM:SS[.frac](Z|+HH:MM|-HH:MM)`
and convert to milliseconds since the Unix epoch using the standard
civil-calendar day count.  Leap seconds are not modelled. -/

/-- Numeric value of a decimal digit character. -/
def digitVal (c : Char) : Option Nat :=
  if 48 ≤ c.toNat ∧ c.toNat ≤ 57 then some (c.toNat - 48) else none

/-- Two decimal digits. -/
def twoDigits (a b : Char) : Option Nat := do
  let x ← digitVal a
  let y ← digitVal b
  pure (10 * x + y)

/-- Four decimal digits. -/
def fourDigits (a b c d : Char) : Option Nat := do
  let x ← twoDigits a b
  let y ← twoDigits c d
  pure (100 * x + y)

/-- Gregorian leap-year rule. -/
def isLeapYear (y : Int) : Bool :=
  (y % 4 = 0 ∧ y % 100 ≠ 0) ∨ y % 400 = 0

/-- Days in a month of the proleptic Gregorian calendar. -/
def daysInMonth (y : Int) (m : Nat) : Nat :=
  if m = 2 then (if isLeapYear y then 29 else 28)
  else if m = 4 ∨ m = 6 ∨ m = 9 ∨ m = 11 then 30
  else 31

/-- Days from 1970-01-01 to the given civil date (Hinnant's algorithm). -/
def daysFromCivil (y : Int) (m d : Nat) : Int :=
  let yAdj : Int := if m ≤ 2 then y - 1 else y
  let era : Int := (if 0 ≤ yAdj then yAdj else yAdj - 399) / 400
  let yoe : Int := yAdj - era * 400
  let mp : Nat := (m + 9) % 12
  let doy : Int := (153 * (mp : Int) + 2) / 5 + (d : Int) - 1
  let doe : Int := yoe * 365 + yoe / 4 - yoe / 100 + doy
  era * 146097 + doe - 719468

/-- Milliseconds named by a fraction-of-second digit list (first three
digits, right-padded with zeros); further digits are truncated as
`timestamp_millis` truncates sub-millisecond precision. -/
def fracMillis : List Nat → Nat
  | [] => 0
  | [a] => a * 100
  | [a, b] => a * 100 + b * 10
  | a :: b :: c :: _ => a * 100 + b * 10 + c

/-- Optional `.digits` fraction after the seconds field; at least one and at
most nine digits when present. -/
def parseFrac : List Char → Option (Nat × List Char)
  | '.' :: rest =>
    let ds := rest.takeWhile (fun c => (digitVal c).isSome)
    let rest2 := rest.dropWhile (fun c => (digitVal c).isSome)
    if ds.length = 0 ∨ 9 < ds.length then none
    else some (fracMillis (ds.map (fun c => (digitVal c).getD 0)), rest2)
  | cs => some (0, cs)

/-- Trailing UTC-offset designator: `Z`/`z` or `±HH:MM`, in minutes. -/
def parseOffsetMinutes : List Char → Option Int
  | ['Z'] => some 0
  | ['z'] => some 0
  | [sgn, h1, h2, ':', m1, m2] =>
    if sgn = '+' ∨ sgn = '-' then do
      let h ← twoDigits h1 h2
      let mi ← twoDigits m1 m2
      if h ≤ 23 ∧ mi ≤ 59 then
        let tot : Int := (h : Int) * 60 + (mi : Int)
        pure (if sgn = '-' then -tot else tot)
      else none
    else none
  | _ => none

/-- Model of `DateTime::parse_from_rfc3339(s)` followed by
`.timestamp_millis()`: `none` when the string is not a valid RFC-3339
date-time (in the source, the surrounding `.unwrap()` panics and the
persistence task dies without writing). -/
def parseRfc3339Millis (s : String) : Option Int :=
  match s.data with
  | y1 :: y2 :: y3 :: y4 :: '-' :: mo1 :: mo2 :: '-' :: d1 :: d2 :: tc ::
      h1 :: h2 :: ':' :: mi1 :: mi2 :: ':' :: s1 :: s2 :: rest =>
    if tc = 'T' ∨ tc = 't' then do
      let y ← fourDigits y1 y2 y3 y4
      let mo ← twoDigits mo1 mo2
      let d ← twoDigits d1 d2
      let h ← twoDigits h1 h2
      let mi ← twoDigits mi1 mi2
      let sec ← twoDigits s1 s2
      if 1 ≤ mo ∧ mo ≤ 12 ∧ 1 ≤ d ∧ d ≤ daysInMonth (y : Int) mo
          ∧ h ≤ 23 ∧ mi ≤ 59 ∧ sec ≤ 59 then
        let fr ← parseFrac rest
        let offMin ← parseOffsetMinutes fr.2
        let days : Int := daysFromCivil (y : Int) mo d
        let secs : Int := days * 86400 + (h : Int) * 3600 + (mi : Int) * 60 + (sec : Int)
          - offMin * 60
        pure (secs * 1000 + (fr.1 : Int))
      else none
    else none
  | _ => none

/-! ## Event sink model (redis_tracing.rs lines 115-161)

`RedisLogLayer::on_event` builds a `LogData` from the event and the active
span chain reported by `ctx.event_scope(event)` and hands it to
`RedisLogger::log` unconditionally.  The chain is listed root-first, matching
`scope.from_root()`; `scope.from_root().last()` is the innermost span and
`span_ref.parent()` is the element just before it. -/

/-- A span in the registry as `on_event` sees it: its `id().into_u64()` and
its static name. -/
structure SpanRecord where
  id : Nat
  name : String
deriving DecidableEq, Repr

/-- An emitted event as `on_event` sees it: the wall-clock timestamp already
rendered by `Utc::now().to_rfc3339()`, the level and rendered message, and
the active span chain (`ctx.event_scope`), root first, when one exists. -/
structure EventModel where
  timestamp : String
  level : String
  message : String
  scope : Option (List SpanRecord)
deriving DecidableEq, Repr

/-- Model of `RedisLogLayer::on_event` (redis_tracing.rs lines 123-160): the
record starts with `span_id = None`, `trace_id = "default_trace_id"`,
`span_name = None`; when an event scope exists and has an innermost span,
`span_id` and `span_name` come from that innermost span and `trace_id` is the
id of its parent, or its own id when it has no parent.  The resulting record
is always handed to `RedisLogger::log`. -/
def RedisLogLayer.on_event (ev : EventModel) : LogData :=
  let base : LogData :=
    { timestamp := ev.timestamp
    , level := ev.level
    , message := ev.message
    , span_id := none
    , trace_id := "default_trace_id"
    , span_name := none }
  match ev.scope with
  | none => base
  | some chain =>
    match chain.getLast? with
    | none => base
    | some innermost =>
      { base with
          span_id := some (toString innermost.id)
        , trace_id :=
            toString (match chain.dropLast.getLast? with
                      | some parent => parent.id
                      | none => innermost.id)
        , span_name := some innermost.name }

/-- A `ZADD key member score` command as issued by the persistence task. -/
structure ZAddCmd where
  key : String
  member : String
  score : Int
deriving DecidableEq, Repr

/-- Model of `RedisLogger::log` (redis_tracing.rs lines 85-108): the spawned
task writes `ZADD` with key `"traces:" ++ app_name`, member
`serde_json::to_string(&log_data)`, and score
`parse_from_rfc3339(timestamp).timestamp_millis()`.  When the timestamp does
not parse, the `.unwrap()` panics and no command is issued. -/
def RedisLogger.log (app_name : String) (ld : LogData) : Option ZAddCmd :=
  match parseRfc3339Millis ld.timestamp with
  | some millis =>
      some { key := "traces:" ++ app_name
           , member := (LogData.toJson ld).render
           , score := millis }
  | none => none

/-- Store commands the sink issues for one emitted event: `on_event` builds
the record and always calls `log`, which issues one `ZADD` (or none if the
persistence task panics on an unparseable timestamp). -/
def onEventCmds (app_name : String) (ev : EventModel) : List ZAddCmd :=
  match RedisLogger.log app_name (RedisLogLayer.on_event ev) with
  | some cmd => [cmd]
  | none => []

/-! ## Query layer model (redis_tracing.rs lines 208-283)

Both viewers check out an async session, `ZRANGEBYSCORE` the whole
`traces:{app}` collection, deserialize each entry in order with a `?` that
propagates the first failure, and only on the fully successful path fall
through to `return_async_connection`.  The deserializer
(`serde_json::from_str::<LogData>`) is passed as a parameter. -/

/-- The loop shared by both viewers: entries in collection order; each entry
that deserializes is printed at once (when the viewer's print condition `p`
holds for it, redis_tracing.rs lines 233 and 268-269) before the next entry
is examined; the first failure stops the loop (the `?` early return), after
the earlier records have already been printed.  Returns the printed records
in order and whether the loop ran to completion. -/
def printLoop (deser : String → Option LogData) (p : LogData → Bool) :
    List String → List LogData × Bool
  | [] => ([], true)
  | l :: rest =>
    match deser l with
    | none => ([], false)
    | some ld =>
      let r := printLoop deser p rest
      (if p ld then ld :: r.1 else r.1, r.2)

/-- Observable outcome of one viewer call: whether the call returned
`Ok(())`, the records printed to stdout before it returned (a failure still
leaves the earlier iterations' output printed), whether
`return_async_connection` ran, and the async pool afterwards. -/
structure ViewRun where
  ok : Bool
  printed : List LogData
  connReturned : Bool
  finalPool : List Nat
deriving Repr

/-- Model of `LogViewer::view_logs_by_app_name` (redis_tracing.rs lines
217-246): checkout, read all entries, deserialize and print each in turn; a
failure's early return surfaces an error and skips
`return_async_connection`, so the session is dropped, but the records
printed before the failing entry stay printed; on full success the session
is returned. -/
def LogViewer.view_logs_by_app_name (deser : String → Option LogData)
    (pool : List Nat) (fresh : Nat) (logs : List String) : ViewRun :=
  let conn := pool.headD fresh
  let poolAfterCheckout := pool.tail
  let run := printLoop deser (fun _ => true) logs
  if run.2 then
    { ok := true
    , printed := run.1
    , connReturned := true
    , finalPool := returnConnection poolAfterCheckout conn }
  else
    { ok := false
    , printed := run.1
    , connReturned := false
    , finalPool := poolAfterCheckout }

/-- Model of `LogViewer::view_logs_by_span_name` (redis_tracing.rs lines
248-283): same control flow, but an iteration prints its record only when
its `span_name` equals the requested name; every entry is still
deserialized, so a failure anywhere aborts the call the same way. -/
def LogViewer.view_logs_by_span_name (deser : String → Option LogData)
    (pool : List Nat) (fresh : Nat) (span_name : String)
    (logs : List String) : ViewRun :=
  let conn := pool.headD fresh
  let poolAfterCheckout := pool.tail
  let run := printLoop deser (fun ld => ld.span_name == some span_name) logs
  if run.2 then
    { ok := true
    , printed := run.1
    , connReturned := true
    , finalPool := returnConnection poolAfterCheckout conn }
  else
    { ok := false
    , printed := run.1
    , connReturned := false
    , finalPool := poolAfterCheckout }

/-! ## Theorems -/

/-- One pool operation preserves the size bound. -/
theorem applyOp_length_le (pool : List Nat) (op : PoolOp)
    (h : pool.length ≤ MAX_POOL_SIZE) :
    (applyOp pool op).length ≤ MAX_POOL_SIZE := by
  cases op with
  | checkout =>
    simp only [applyOp, checkoutPool, List.length_tail]
    omega
  | ret conn =>
    simp only [applyOp, returnConnection]
    split
    · simp only [List.length_append, List.length_cons, List.length_nil]
      omega
    · exact h

/-- A sequence of pool operations preserves the size bound. -/
theorem applyOps_length_le (ops : List PoolOp) (pool : List Nat)
    (h : pool.length ≤ MAX_POOL_SIZE) :
    (applyOps pool ops).length ≤ MAX_POOL_SIZE := by
  induction ops generalizing pool with
  | nil => exact h
  | cons op rest ih => exact ih _ (applyOp_length_le pool op h)

/-- C3: starting from a pool within the bound, after every prefix of any
sequence of checkout/return operations the pool holds at most
`MAX_POOL_SIZE` (= 100) idle sessions; and a returned session is pushed back
exactly when the pool's length is strictly below the bound, otherwise the
pool is left unchanged (the session is dropped). -/
theorem pool_size_invariant (init : List Nat) (ops : List PoolOp)
    (h : init.length ≤ MAX_POOL_SIZE) :
    (∀ pre suf, ops = pre ++ suf → (applyOps init pre).length ≤ MAX_POOL_SIZE) ∧
    (∀ pool conn, pool.length < MAX_POOL_SIZE →
      returnConnection pool conn = pool ++ [conn]) ∧
    (∀ pool conn, MAX_POOL_SIZE ≤ pool.length →
      returnConnection pool conn = pool) := by
  refine ⟨fun pre _ _ => applyOps_length_le pre init h, ?_, ?_⟩
  · intro pool conn hlt
    simp [returnConnection, hlt]
  · intro pool conn hge
    simp [returnConnection, Nat.not_lt.mpr hge]

/-- Witness for `pool_size_invariant` at the empty pool and a concrete
return-then-checkout sequence. -/
theorem pool_size_invariant_witness :
    ([] : List Nat).length ≤ MAX_POOL_SIZE ∧
    (applyOps [] [PoolOp.ret 5]).length ≤ MAX_POOL_SIZE :=
  ⟨by decide,
   (pool_size_invariant [] [PoolOp.ret 5, PoolOp.checkout] (by decide)).1
     [PoolOp.ret 5] [PoolOp.checkout] rfl⟩

/-- C4 counterexample: `get_async_conn` holds the pool lock across the
session-creation await when the pool is empty, so the claim that no checkout
operation ever holds the lock across an await of network I/O is false. -/
theorem get_async_conn_holds_lock_across_await :
    holdsLockAcrossAwait (getAsyncConnTrace true) 0 = true := by decide

/-- C4 (amended): `get_async_connection`, `get_pubsub_connection` and the
return operations acquire the lock only for the single pop or push and never
hold it across an await of network I/O; `get_async_conn` also satisfies this
when the pool is nonempty, but on the empty-pool path it holds the lock
across the session-creation await. -/
theorem lock_discipline_amended :
    (∀ poolEmpty : Bool,
      holdsLockAcrossAwait (getAsyncConnectionTrace poolEmpty) 0 = false) ∧
    (∀ poolEmpty : Bool,
      holdsLockAcrossAwait (getPubsubConnectionTrace poolEmpty) 0 = false) ∧
    (∀ hasRoom : Bool,
      holdsLockAcrossAwait (returnConnectionTrace hasRoom) 0 = false) ∧
    holdsLockAcrossAwait (getAsyncConnTrace false) 0 = false ∧
    holdsLockAcrossAwait (getAsyncConnTrace true) 0 = true := by
  refine ⟨fun b => ?_, fun b => ?_, fun b => ?_, by decide, by decide⟩ <;>
    cases b <;> decide

/-- No message arrives and the stream does not end strictly before the timer
of length `t` fires. -/
def noStreamEventBefore (t : Nat) : StreamOutcome → Prop
  | .msg _ arrival => t ≤ arrival
  | .closed endTime => t ≤ endTime
  | .silent => True

/-- C2: with the subscribe call succeeded, `subscribe_and_wait_for_response`
returns the exact published payload when the first message arrives strictly
after the subscribe and before the deadline, returns the Timeout error when
neither a message nor a stream end happens before the timer fires, and
returns the NoMessage error when the stream ends with no message before the
timer fires. -/
theorem await_response_outcomes (pool : List Nat) (fresh : Nat)
    (channel : String) (t : Nat) :
    (∀ payload arrival, 0 < arrival → arrival < t →
      (subscribe_and_wait_for_response pool fresh channel t true
        (.msg payload arrival)).result = .ok payload) ∧
    (∀ env, noStreamEventBefore t env →
      (subscribe_and_wait_for_response pool fresh channel t true env).result
        = .error timeoutErr) ∧
    (∀ endTime, endTime < t →
      (subscribe_and_wait_for_response pool fresh channel t true
        (.closed endTime)).result = .error noMessageErr) := by
  refine ⟨?_, ?_, ?_⟩
  · intro payload arrival _ hlt
    simp [subscribe_and_wait_for_response, timeoutRace, hlt]
  · intro env henv
    cases env with
    | msg payload arrival =>
      simp only [noStreamEventBefore] at henv
      simp [subscribe_and_wait_for_response, timeoutRace, Nat.not_lt.mpr henv]
    | closed endTime =>
      simp only [noStreamEventBefore] at henv
      simp [subscribe_and_wait_for_response, timeoutRace, Nat.not_lt.mpr henv]
    | silent =>
      simp [subscribe_and_wait_for_response, timeoutRace]
  · intro endTime hlt
    simp [subscribe_and_wait_for_response, timeoutRace, hlt]

/-- Witness for `await_response_outcomes` with timeout 5: a message arriving
at 2 is returned, silence yields the Timeout error, a stream end at 1 yields
the NoMessage error. -/
theorem await_response_outcomes_witness :
    (subscribe_and_wait_for_response [] 0 "chan" 5 true
      (.msg "payload" 2)).result = .ok "payload" ∧
    (subscribe_and_wait_for_response [] 0 "chan" 5 true .silent).result
      = .error timeoutErr ∧
    (subscribe_and_wait_for_response [] 0 "chan" 5 true (.closed 1)).result
      = .error noMessageErr :=
  ⟨(await_response_outcomes [] 0 "chan" 5).1 "payload" 2 (by decide) (by decide),
   (await_response_outcomes [] 0 "chan" 5).2.1 .silent (by simp [noStreamEventBefore]),
   (await_response_outcomes [] 0 "chan" 5).2.2 1 (by decide)⟩

/-- C6: whichever of the three wait outcomes occurs, the run issues the
subscribe, then the unsubscribe, then the return-to-pool, and the pub/sub
session (the popped idle session, or the fresh one) is handed back to its
pool before the function returns. -/
theorem await_response_cleanup (pool : List Nat) (fresh : Nat)
    (channel : String) (t : Nat) (env : StreamOutcome) :
    (subscribe_and_wait_for_response pool fresh channel t true env).actions
      = [.subscribe channel, .unsubscribe channel, .returnToPool] ∧
    (subscribe_and_wait_for_response pool fresh channel t true env).finalPool
      = returnConnection pool.tail (pool.headD fresh) := by
  constructor <;> simp [subscribe_and_wait_for_response]

/-- An event with no active span chain, as raised by the top-level
`info!("Starting test")` of the repository's own test. -/
def noScopeEvent : EventModel :=
  { timestamp := "2024-01-01T00:00:00+00:00"
  , level := "INFO"
  , message := "Starting test"
  , scope := none }

/-- C1 counterexample: an event with no active span chain is persisted (one
ZADD is issued for it), not discarded; `on_event` has no discard path and no
opt-in gate. -/
theorem event_without_span_chain_is_persisted :
    onEventCmds "test" noScopeEvent ≠ [] := by decide

/-- The record built by `on_event` always carries the event's timestamp. -/
theorem on_event_timestamp (ev : EventModel) :
    (RedisLogLayer.on_event ev).timestamp = ev.timestamp := by
  rcases hs : ev.scope with _ | chain
  · simp [RedisLogLayer.on_event, hs]
  · rcases hl : chain.getLast? with _ | innermost
    · simp [RedisLogLayer.on_event, hs, hl]
    · simp [RedisLogLayer.on_event, hs, hl]

/-- C1 (amended): the EventSink persists every emitted event unconditionally
(whenever its timestamp parses, exactly one ZADD is issued): there is no
opt-in marker and no discard path; an event with no active span chain is
persisted with `trace_id` `"default_trace_id"` and empty span fields. -/
theorem every_event_persisted (app_name : String) (ev : EventModel)
    (millis : Int) (h : parseRfc3339Millis ev.timestamp = some millis) :
    (onEventCmds app_name ev).length = 1 ∧
    (ev.scope = none →
      (RedisLogLayer.on_event ev).trace_id = "default_trace_id" ∧
      (RedisLogLayer.on_event ev).span_id = none ∧
      (RedisLogLayer.on_event ev).span_name = none) := by
  constructor
  · simp [onEventCmds, RedisLogger.log, on_event_timestamp, h]
  · intro hnone
    simp [RedisLogLayer.on_event, hnone]

/-- Witness for `every_event_persisted` at a concrete no-scope event. -/
theorem every_event_persisted_witness :
    parseRfc3339Millis noScopeEvent.timestamp = some 1704067200000 ∧
    (onEventCmds "test" noScopeEvent).length = 1 :=
  ⟨by decide,
   (every_event_persisted "test" noScopeEvent 1704067200000 (by decide)).1⟩

/-- An event raised under the depth-3 chain
root(id 1) → middle(id 2) → innermost(id 3, "apalis_job"). -/
def deepChainEvent : EventModel :=
  { timestamp := "2024-01-01T00:00:00+00:00"
  , level := "INFO"
  , message := "Processing job"
  , scope := some [⟨1, "job-run"⟩, ⟨2, "middle"⟩, ⟨3, "apalis_job"⟩] }

/-- C5 counterexample: under a depth-3 chain whose root has id 1 and whose
innermost span's parent has id 2, the record's `trace_id` is `"2"` — the
parent of the innermost span — and not the root's identifier `"1"`. -/
theorem trace_id_not_root_id :
    (RedisLogLayer.on_event deepChainEvent).trace_id = "2" ∧
    (RedisLogLayer.on_event deepChainEvent).trace_id ≠ "1" := by decide

/-- Identifier the source assigns to `trace_id`: the parent of the innermost
span of the chain, or the innermost span itself when it has no parent
(`span_ref.parent().map_or_else(...)`, redis_tracing.rs lines 151-154). -/
def innermostParentId (chain : List SpanRecord) (innermost : SpanRecord) : Nat :=
  match chain.dropLast.getLast? with
  | some parent => parent.id
  | none => innermost.id

/-- The event of the repository's test scenario: chain
root("job-run", id 1) → child("apalis_job", id 2). -/
def jobRunEvent : EventModel :=
  { timestamp := "2024-01-01T00:00:00+00:00"
  , level := "INFO"
  , message := "Processing job"
  , scope := some [⟨1, "job-run"⟩, ⟨2, "apalis_job"⟩] }

/-- C5 (amended): for every event with an active span chain, `span_id` and
`span_name` come from the innermost span and `trace_id` is the identifier of
the innermost span's parent (the innermost's own id when it is the root); in
particular a depth-2 chain root("job-run") → child("apalis_job") produces
exactly one record whose `trace_id` is the root's identifier and whose
`span_name` is `"apalis_job"`. -/
theorem trace_id_from_parent_of_innermost (ev : EventModel)
    (chain : List SpanRecord) (innermost : SpanRecord)
    (hscope : ev.scope = some chain) (hlast : chain.getLast? = some innermost) :
    (RedisLogLayer.on_event ev).span_id = some (toString innermost.id) ∧
    (RedisLogLayer.on_event ev).span_name = some innermost.name ∧
    (RedisLogLayer.on_event ev).trace_id
      = toString (innermostParentId chain innermost) ∧
    (RedisLogLayer.on_event jobRunEvent).trace_id = "1" ∧
    (RedisLogLayer.on_event jobRunEvent).span_name = some "apalis_job" ∧
    (onEventCmds "test" jobRunEvent).length = 1 := by
  refine ⟨?_, ?_, ?_, by decide, by decide, by decide⟩ <;>
    simp [RedisLogLayer.on_event, innermostParentId, hscope, hlast]

/-- Witness for `trace_id_from_parent_of_innermost` at the depth-2 test
chain. -/
theorem trace_id_from_parent_of_innermost_witness :
    (RedisLogLayer.on_event jobRunEvent).span_name = some "apalis_job" ∧
    (RedisLogLayer.on_event jobRunEvent).trace_id
      = toString (innermostParentId [⟨1, "job-run"⟩, ⟨2, "apalis_job"⟩]
          ⟨2, "apalis_job"⟩) :=
  ⟨(trace_id_from_parent_of_innermost jobRunEvent
      [⟨1, "job-run"⟩, ⟨2, "apalis_job"⟩] ⟨2, "apalis_job"⟩ rfl (by decide)).2.1,
   (trace_id_from_parent_of_innermost jobRunEvent
      [⟨1, "job-run"⟩, ⟨2, "apalis_job"⟩] ⟨2, "apalis_job"⟩ rfl (by decide)).2.2.1⟩

/-- A concrete record as the sink builds it for a span-less event. -/
def sampleRecord : LogData :=
  { timestamp := "2024-01-01T00:00:00+00:00"
  , level := "INFO"
  , message := "Handling request"
  , span_id := none
  , trace_id := "1"
  , span_name := none }

/-- C7 counterexample: the serialized record is a JSON object with exactly
six fields — `job_id` and `service_name` are not among them. -/
theorem logrecord_json_lacks_job_id :
    (LogData.toJson sampleRecord).fieldNames
      = ["timestamp", "level", "message", "span_id", "trace_id", "span_name"] ∧
    (LogData.toJson sampleRecord).lookup "job_id" = none ∧
    (LogData.toJson sampleRecord).lookup "service_name" = none := by decide

/-- C7 (amended): every serialized LogRecord is a JSON object with exactly
the fields `timestamp`, `level`, `message`, `span_id`, `trace_id`,
`span_name` (no `job_id` or `service_name` field exists), and the optional
fields serialize as `null` when unset and as the string when set. -/
theorem logrecord_json_shape (ld : LogData) :
    (LogData.toJson ld).fieldNames
      = ["timestamp", "level", "message", "span_id", "trace_id", "span_name"] ∧
    (LogData.toJson ld).lookup "job_id" = none ∧
    (ld.span_id = none → (LogData.toJson ld).lookup "span_id" = some .null) ∧
    (∀ s, ld.span_id = some s →
      (LogData.toJson ld).lookup "span_id" = some (.str s)) ∧
    (ld.span_name = none →
      (LogData.toJson ld).lookup "span_name" = some .null) ∧
    (∀ s, ld.span_name = some s →
      (LogData.toJson ld).lookup "span_name" = some (.str s)) := by
  obtain ⟨ts, lv, msg, sid, tid, sname⟩ := ld
  refine ⟨rfl, rfl, ?_, ?_, ?_, ?_⟩
  · intro h
    subst h
    rfl
  · intro s h
    subst h
    rfl
  · intro h
    subst h
    rfl
  · intro s h
    subst h
    rfl

/-- Witness for `logrecord_json_shape` at a concrete record with both
optional fields unset. -/
theorem logrecord_json_shape_witness :
    sampleRecord.span_id = none ∧
    (LogData.toJson sampleRecord).lookup "span_id" = some .null :=
  ⟨rfl, (logrecord_json_shape sampleRecord).2.2.1 rfl⟩

/-- C8: whenever the record's timestamp parses as RFC-3339, the persistence
task issues exactly the ZADD whose key is the literal prefix `"traces:"`
followed by the application name verbatim, whose member is the serialized
record, and whose score is the timestamp converted to epoch milliseconds. -/
theorem log_key_and_score (app_name : String) (ld : LogData) (millis : Int)
    (h : parseRfc3339Millis ld.timestamp = some millis) :
    RedisLogger.log app_name ld
      = some { key := "traces:" ++ app_name
             , member := (LogData.toJson ld).render
             , score := millis } := by
  simp [RedisLogger.log, h]

/-- A record carrying a fractional-second timestamp, as `to_rfc3339`
produces. -/
def scoredRecord : LogData :=
  { timestamp := "2024-01-01T12:34:56.789+00:00"
  , level := "INFO"
  , message := "Processing job"
  , span_id := some "2"
  , trace_id := "1"
  , span_name := some "apalis_job" }

/-- Witness for `log_key_and_score` at a concrete record: the score is the
epoch-millisecond value of `2024-01-01T12:34:56.789+00:00`. -/
theorem log_key_and_score_witness :
    parseRfc3339Millis scoredRecord.timestamp = some 1704112496789 ∧
    RedisLogger.log "test" scoredRecord
      = some { key := "traces:test"
             , member := (LogData.toJson scoredRecord).render
             , score := 1704112496789 } :=
  ⟨by decide, log_key_and_score "test" scoredRecord 1704112496789 (by decide)⟩

/-- A single failing entry makes the loop stop before completion. -/
theorem printLoop_not_ok_of_fail (deser : String → Option LogData)
    (p : LogData → Bool) (logs : List String) (l : String) (hl : l ∈ logs)
    (hf : deser l = none) :
    (printLoop deser p logs).2 = false := by
  induction logs with
  | nil => simp at hl
  | cons x rest ih =>
    rcases List.mem_cons.mp hl with rfl | hmem
    · simp [printLoop, hf]
    · unfold printLoop
      cases hx : deser x with
      | none => rfl
      | some ld => simp [ih hmem]

/-- When every entry deserializes, the loop runs to completion. -/
theorem printLoop_ok_of_all (deser : String → Option LogData)
    (p : LogData → Bool) (logs : List String)
    (h : ∀ l ∈ logs, (deser l).isSome) :
    (printLoop deser p logs).2 = true := by
  induction logs with
  | nil => simp [printLoop]
  | cons x rest ih =>
    rcases Option.isSome_iff_exists.mp (h x (List.mem_cons_self x rest))
      with ⟨ld, hld⟩
    simp [printLoop, hld, ih fun l hl => h l (List.mem_cons_of_mem x hl)]

/-- What the loop prints is exactly the records of the longest prefix of
entries that deserialize, filtered by the print condition, whether or not
the loop completes. -/
theorem printLoop_printed (deser : String → Option LogData)
    (p : LogData → Bool) (logs : List String) :
    (printLoop deser p logs).1
      = ((logs.takeWhile fun s => (deser s).isSome).filterMap deser).filter p := by
  induction logs with
  | nil => simp [printLoop]
  | cons x rest ih =>
    cases hx : deser x with
    | none => simp [printLoop, List.takeWhile_cons, hx]
    | some ld =>
      simp [printLoop, List.takeWhile_cons, List.filter_cons, hx, ih]

/-- A deserializer that accepts the entry `"good"` and rejects every other
entry, standing for a collection holding one well-formed record followed by
one malformed one. -/
def failingDeser : String → Option LogData :=
  fun s => if s = "good" then some sampleRecord else none

/-- C9 counterexample: on a collection whose first entry deserializes and
whose second does not, the fetch does abort with an error, yet the first
record has already been printed before the failure — the caller observes a
partial sequence of records, so the all-or-nothing claim is false. -/
theorem partial_records_printed_before_error :
    (LogViewer.view_logs_by_app_name failingDeser [] 0 ["good", "bad"]).ok
      = false ∧
    (LogViewer.view_logs_by_app_name failingDeser [] 0 ["good", "bad"]).printed
      = [sampleRecord] := by decide

/-- C9 (amended): if any stored entry fails to deserialize, both viewers
abort and surface an error (no `Ok` result, and the session is not
returned), and what has been printed is exactly the records of the entries
strictly before the first failing one (filtered by span name in the
span-name viewer) — the caller receives that partial prefix on stdout
rather than no records at all. -/
theorem fetch_aborts_after_partial_print (deser : String → Option LogData)
    (pool : List Nat) (fresh : Nat) (span_name : String)
    (logs : List String) (l : String) (hl : l ∈ logs) (hf : deser l = none) :
    (LogViewer.view_logs_by_app_name deser pool fresh logs).ok = false ∧
    (LogViewer.view_logs_by_span_name deser pool fresh span_name logs).ok
      = false ∧
    (LogViewer.view_logs_by_app_name deser pool fresh logs).printed
      = (logs.takeWhile fun s => (deser s).isSome).filterMap deser ∧
    (LogViewer.view_logs_by_span_name deser pool fresh span_name logs).printed
      = ((logs.takeWhile fun s => (deser s).isSome).filterMap deser).filter
          (fun ld => ld.span_name == some span_name) := by
  have h1 := printLoop_not_ok_of_fail deser (fun _ => true) logs l hl hf
  have h2 := printLoop_not_ok_of_fail deser
    (fun ld => ld.span_name == some span_name) logs l hl hf
  refine ⟨?_, ?_, ?_, ?_⟩ <;>
    simp [LogViewer.view_logs_by_app_name, LogViewer.view_logs_by_span_name,
      h1, h2, printLoop_printed]

/-- Witness for `fetch_aborts_after_partial_print` at the two-entry
collection whose second entry is malformed. -/
theorem fetch_aborts_after_partial_print_witness :
    "bad" ∈ ["good", "bad"] ∧
    (LogViewer.view_logs_by_app_name failingDeser [] 0 ["good", "bad"]).ok
      = false ∧
    (LogViewer.view_logs_by_app_name failingDeser [] 0 ["good", "bad"]).printed
      = (["good", "bad"].takeWhile fun s => (failingDeser s).isSome).filterMap
          failingDeser :=
  ⟨by decide,
   (fetch_aborts_after_partial_print failingDeser [] 0 "apalis_job"
     ["good", "bad"] "bad" (by decide) (by decide)).1,
   (fetch_aborts_after_partial_print failingDeser [] 0 "apalis_job"
     ["good", "bad"] "bad" (by decide) (by decide)).2.2.1⟩

/-- C10: in both viewers the checked-out session is returned to the pool
only on the fully successful path: when some entry fails to deserialize, the
early error return skips `return_async_connection`, the session is dropped,
and the pool is left at its post-checkout state (its idle count does not
grow); when every entry deserializes, the session is returned. -/
theorem conn_returned_only_on_success (deser : String → Option LogData)
    (pool : List Nat) (fresh : Nat) (span_name : String)
    (logs : List String) :
    ((∃ l ∈ logs, deser l = none) →
      (LogViewer.view_logs_by_app_name deser pool fresh logs).connReturned
        = false ∧
      (LogViewer.view_logs_by_app_name deser pool fresh logs).finalPool
        = pool.tail ∧
      (LogViewer.view_logs_by_app_name deser pool fresh
        logs).finalPool.length ≤ pool.length ∧
      (LogViewer.view_logs_by_span_name deser pool fresh span_name
        logs).connReturned = false ∧
      (LogViewer.view_logs_by_span_name deser pool fresh span_name
        logs).finalPool = pool.tail) ∧
    ((∀ l ∈ logs, (deser l).isSome) →
      (LogViewer.view_logs_by_app_name deser pool fresh logs).connReturned
        = true ∧
      (LogViewer.view_logs_by_span_name deser pool fresh span_name
        logs).connReturned = true) := by
  constructor
  · rintro ⟨l, hl, hf⟩
    have h1 := printLoop_not_ok_of_fail deser (fun _ => true) logs l hl hf
    have h2 := printLoop_not_ok_of_fail deser
      (fun ld => ld.span_name == some span_name) logs l hl hf
    refine ⟨?_, ?_, ?_, ?_, ?_⟩ <;>
      simp [LogViewer.view_logs_by_app_name, LogViewer.view_logs_by_span_name,
        h1, h2, List.length_tail]
  · intro hall
    have h1 := printLoop_ok_of_all deser (fun _ => true) logs hall
    have h2 := printLoop_ok_of_all deser
      (fun ld => ld.span_name == some span_name) logs hall
    constructor <;>
      simp [LogViewer.view_logs_by_app_name, LogViewer.view_logs_by_span_name,
        h1, h2]

/-- Witness for `conn_returned_only_on_success`: with one undeserializable
entry the session is not returned; with an always-succeeding deserializer it
is. -/
theorem conn_returned_only_on_success_witness :
    (LogViewer.view_logs_by_app_name (fun _ => none) [7] 0 ["bad"]).connReturned
      = false ∧
    (LogViewer.view_logs_by_app_name (fun _ => some sampleRecord) [7] 0
      ["good"]).connReturned = true :=
  ⟨((conn_returned_only_on_success (fun _ => none) [7] 0 "apalis_job"
      ["bad"]).1 ⟨"bad", List.mem_singleton.mpr rfl, rfl⟩).1,
   ((conn_returned_only_on_success (fun _ => some sampleRecord) [7] 0
      "apalis_job" ["good"]).2 (fun _ _ => rfl)).1⟩
